import Mathlib

/-!
Shallow embedding of the provider bridge from src/app/(tabs)/explore.tsx:
the host-side dispatch onEthereumRequest, the response encoding of
sendWebViewResponse, the host message handler handleWebViewMessage, and the
injected page-side provider (install guard and per-call message listener
handleMessage).

JavaScript values that cross the bridge are modelled by the inductive JValue
(undefined, null, booleans, integers, strings, arrays, plain objects).
JSON.parse of an inbound text is modelled as an already-parsed Option JValue:
none stands for text that is not valid JSON, so the parse throws and the
surrounding try/catch swallows it.
-/

/-- A JavaScript value as it appears on the message channel. -/
inductive JValue where
  | undefined : JValue
  | null : JValue
  | bool : Bool → JValue
  | num : Int → JValue
  | str : String → JValue
  | arr : List JValue → JValue
  | obj : List (String × JValue) → JValue
deriving Repr

/-- JavaScript truthiness: undefined, null, false, 0 and the empty string are
falsy; every array and object is truthy. -/
def jsTruthy : JValue → Bool
  | .undefined => false
  | .null => false
  | .bool b => b
  | .num n => n != 0
  | .str s => s != ""
  | .arr _ => true
  | .obj _ => true

/-- The JS short-circuit fallback `v || dflt`. -/
def jsOrElse (v dflt : JValue) : JValue :=
  if jsTruthy v then v else dflt

/-- Whether property access on the value throws a TypeError (true exactly for
null and undefined). -/
def isNullish : JValue → Bool
  | .undefined => true
  | .null => true
  | _ => false

/-- Property lookup `v.k` for the keys used by the bridge. On a plain object
it returns the value of the first field named k (undefined when absent); on
booleans, numbers, strings and arrays the accessed keys (type, method,
params, success, result, errorMessage) do not exist, so the access yields
undefined. Callers guard the null/undefined case separately, where the
access would throw. -/
def jget (v : JValue) (k : String) : JValue :=
  match v with
  | .obj fs =>
    match fs.find? (fun p => p.1 == k) with
    | some p => p.2
    | none => .undefined
  | _ => .undefined

/-- JS strict equality of a value against a string literal, as in
`data.type === \x7bETH_RESPONSE literal\x7d`: true only for the equal string. -/
def jeqStr (v : JValue) (t : String) : Bool :=
  match v with
  | .str s => s == t
  | _ => false

/-- String(v) coercion, as used by template literals and the Error
constructor. Arrays join their elements with commas, null and undefined
elements rendering empty, per Array.prototype.toString. -/
def jsToString : JValue → String
  | .undefined => "undefined"
  | .null => "null"
  | .bool b => cond b "true" "false"
  | .num n => toString n
  | .str s => s
  | .arr xs => String.intercalate "," (xs.attach.map fun v =>
      if isNullish v.1 then "" else jsToString v.1)
  | .obj _ => "[object Object]"
decreasing_by
  rcases v with ⟨w, hw⟩
  have h := List.sizeOf_lt_of_mem hw
  simp only [JValue.arr.sizeOf_spec]
  omega

/-- The JS array-destructuring `const [a, b] = v`: arrays yield their first
two elements (undefined past the end), strings are iterable and yield their
first two characters as one-character strings, and every other value throws
a TypeError, modelled as an error whose text names the value. -/
def destructure2 : JValue → Except String (JValue × JValue)
  | .arr xs => .ok (xs.getD 0 .undefined, xs.getD 1 .undefined)
  | .str s =>
    .ok (match s.data.get? 0 with
          | some c => .str (String.mk [c])
          | none => .undefined,
         match s.data.get? 1 with
          | some c => .str (String.mk [c])
          | none => .undefined)
  | v => .error (jsToString v ++ " is not iterable")

/-- A consent decision: which button of the Alert the user presses. -/
inductive Decision where
  | approve : Decision
  | reject : Decision
deriving Repr, DecidableEq

/-- One invocation of the response emitter sendWebViewResponse, with the
arguments it receives. -/
structure EmitCall where
  method : String
  success : Bool
  resultOrError : JValue
deriving Repr

/-- What one dispatch of onEthereumRequest does: the consent Alert it shows
(title and message), when any, and the emitter invocations it performs. -/
structure DispatchOutcome where
  alert : Option (String × String)
  emits : List EmitCall
deriving Repr

/-- The configured mock account address returned by eth_requestAccounts and
eth_accounts. -/
def mockWalletAddress : String := "0xDUMMY_WALLET_ADDRESS"

/-- The host-side dispatch onEthereumRequest from explore.tsx. The switch on
the method string is a chain of strict string comparisons; consent-gated
branches show an Alert and the decision argument selects which button
callback runs (the assumption that each consent gate yields exactly one
decision). The personal_sign branch first destructures `params || []`,
which throws for a truthy non-iterable params value; a thrown TypeError is
the error case. Every other branch emits exactly once. -/
def onEthereumRequest (method : String) (params : JValue) (decide : Decision) :
    Except String DispatchOutcome :=
  if method = "eth_requestAccounts" then
    .ok { alert := some ("Connection Request",
                         "Uniswap wants to connect your wallet.\nAllow?"),
          emits := [match decide with
            | .reject => ⟨method, false, .str "User rejected connection"⟩
            | .approve => ⟨method, true, .arr [.str mockWalletAddress]⟩] }
  else if method = "eth_chainId" then
    .ok { alert := none, emits := [⟨method, true, .str "0x1"⟩] }
  else if method = "net_version" then
    .ok { alert := none, emits := [⟨method, true, .str "1"⟩] }
  else if method = "eth_accounts" then
    .ok { alert := none, emits := [⟨method, true, .arr [.str mockWalletAddress]⟩] }
  else if method = "eth_sendTransaction" then
    .ok { alert := some ("Transaction Request",
                         "Uniswap wants to send a transaction.\nApprove transaction?"),
          emits := [match decide with
            | .reject => ⟨method, false, .str "User rejected transaction"⟩
            | .approve => ⟨method, true, .str "0xDUMMY_TRANSACTION_HASH"⟩] }
  else if method = "wallet_switchEthereumChain" then
    .ok { alert := none, emits := [⟨method, true, .null⟩] }
  else if method = "personal_sign" then
    match destructure2 (jsOrElse params (.arr [])) with
    | .error e => .error e
    | .ok (message, address) =>
      .ok { alert := some ("Signature Request",
              "Uniswap wants to sign:\n" ++ jsToString message ++
              "\nWith address:\n" ++ jsToString address ++ "\nAllow?"),
            emits := [match decide with
              | .reject => ⟨method, false, .str "User rejected signature"⟩
              | .approve => ⟨method, true, .str "0xFAKE_SIGNATURE"⟩] }
  else
    .ok { alert := none,
          emits := [⟨method, false, .str ("Method not supported: " ++ method)⟩] }

/-- The wire Response, with result and errorMessage as optional fields: none
models a field whose value is undefined, which JSON.stringify omits from the
serialized message. -/
structure Response where
  type : String
  method : String
  success : Bool
  result : Option JValue
  errorMessage : Option JValue
deriving Repr

/-- A property set to undefined is dropped by JSON.stringify; any other value
is serialized. -/
def jsonField : JValue → Option JValue
  | .undefined => none
  | v => some v

/-- The Response message built by sendWebViewResponse from its arguments, as
written in its postMessage body: result is resultOrError when success and
undefined otherwise, errorMessage the other way around. (In the current
source this postMessage block is commented out; the shape is taken from that
block, the one place the Response encoding is defined.) -/
def encodeResponse (c : EmitCall) : Response :=
  { type := "ETH_RESPONSE"
    method := c.method
    success := c.success
    result := jsonField (if c.success then c.resultOrError else .undefined)
    errorMessage := jsonField (if c.success then .undefined else c.resultOrError) }

/-- The active body of sendWebViewResponse: the whole postMessage block is
commented out, so no message is posted to the WebView regardless of the
arguments; the function only logs. The value is the list of messages it
posts. -/
def sendWebViewResponsePosts (method : String) (success : Bool)
    (resultOrError : JValue) : List Response := []

/-- The host message handler handleWebViewMessage. The raw argument is the
result of JSON.parse on the inbound text (none when the text is not valid
JSON and the parse throws). The try/catch swallows the parse error, a
TypeError from a property access on null, and any exception thrown by
onEthereumRequest, sending nothing in those cases; otherwise the handler
dispatches when data.type is the string ETH_REQUEST and ignores everything
else. The switch in onEthereumRequest compares the method with strict string
equality, so only string methods match a case; the model passes
String(data.method), which agrees with the source on every string method and
sends non-string methods to the default branch exactly as the switch does. -/
def handleWebViewMessage (raw : Option JValue) (decide : Decision) :
    List EmitCall :=
  match raw with
  | none => []
  | some data =>
    if isNullish data then []
    else if jeqStr (jget data "type") "ETH_REQUEST" then
      match onEthereumRequest (jsToString (jget data "method"))
              (jget data "params") decide with
      | .ok o => o.emits
      | .error _ => []
    else []

/-- How a pending call in the injected provider settles: its deferred promise
is fulfilled with a result or rejected with an Error carrying a message. -/
inductive Settlement where
  | fulfilled : JValue → Settlement
  | rejectedErr : String → Settlement
deriving Repr

/-- The per-call listener handleMessage of the injected provider, for a
pending call on callMethod. The raw argument is the result of JSON.parse on
the inbound event data (none when the parse throws; the try/catch swallows
it, as it does the TypeError from data.type on null). Returning none means
the listener stays registered and the call pending; returning some s means
the listener removed itself and settled the deferred with s, fulfilled with
data.result when data.success is truthy, rejected with an Error whose
message is data.errorMessage, or the default text when that is falsy. -/
def handleMessage (callMethod : String) (raw : Option JValue) :
    Option Settlement :=
  match raw with
  | none => none
  | some data =>
    if isNullish data then none
    else if jeqStr (jget data "type") "ETH_RESPONSE" &&
            jeqStr (jget data "method") callMethod then
      if jsTruthy (jget data "success") then
        some (.fulfilled (jget data "result"))
      else
        some (.rejectedErr (jsToString
          (jsOrElse (jget data "errorMessage") (.str "Request failed"))))
    else none

/-- Running a pending call listener over a stream of inbound messages: the
first message it reacts to settles the call; none means the call is still
pending after the whole stream. -/
def settleAfter (callMethod : String) : List (Option JValue) → Option Settlement
  | [] => none
  | m :: ms =>
    match handleMessage callMethod m with
    | some s => some s
    | none => settleAfter callMethod ms

/-- The props actually passed to the WebView element in the App component:
only the url is set; the onMessage, injectedJavaScript, javaScriptEnabled,
originWhitelist and ref props are all commented out. -/
structure AppWebViewConfig where
  url : String
  hasOnMessage : Bool
  hasInjectedJavaScript : Bool
deriving Repr

/-- The WebView as mounted in App. -/
def appWebView : AppWebViewConfig :=
  { url := "https://app.uniswap.org"
    hasOnMessage := false
    hasInjectedJavaScript := false }

/-- Page-originated messages delivered to the host: the WebView forwards them
to a handler only when an onMessage prop is mounted. -/
def hostInbound (cfg : AppWebViewConfig) (pageMsgs : List String) :
    List String :=
  if cfg.hasOnMessage then pageMsgs else []

/-- The window.ethereum slot of the page when the injected script runs:
absent (undefined, falsy), already holding some provider object (objects are
truthy; distinct providers are distinguished by an opaque tag), or holding
the mock provider this script installs. -/
inductive EthSlot where
  | absent : EthSlot
  | provider : Nat → EthSlot
  | mock : EthSlot
deriving Repr, DecidableEq

/-- What one run of the injected script did. -/
structure InjectResult where
  slot : EthSlot
  installedMock : Bool
  scheduledAutoConnect : Bool
  threw : Bool
deriving Repr, DecidableEq

/-- The top of the injected script: if window.ethereum is already set the
IIFE returns at once; otherwise it builds the mock provider, assigns it to
window.ethereum and schedules the delayed automatic eth_requestAccounts. -/
def runInjectedScript : EthSlot → InjectResult
  | .absent => ⟨.mock, true, true, false⟩
  | s => ⟨s, false, false, false⟩

/-- The method strings the switch in onEthereumRequest has a case for. -/
def dispatchTable : List String :=
  ["eth_requestAccounts", "eth_chainId", "net_version", "eth_accounts",
   "eth_sendTransaction", "wallet_switchEthereumChain", "personal_sign"]

/-- The emitter call made by the personal_sign branch for each decision. -/
def signEmit : Decision → EmitCall
  | .approve => ⟨"personal_sign", true, .str "0xFAKE_SIGNATURE"⟩
  | .reject => ⟨"personal_sign", false, .str "User rejected signature"⟩

/-- A value of the shape jget returns .str for is only produced on objects,
so a successful strict string comparison on a looked-up field rules out
null and undefined receivers. -/
theorem isNullish_eq_false_of_jeqStr {d : JValue} {k t : String}
    (h : jeqStr (jget d k) t = true) : isNullish d = false := by
  cases d <;> first | rfl | simp [jget, jeqStr] at h

/-- C1 counterexample: a well-formed personal_sign Request whose params is
the boolean true makes the dispatch throw a TypeError while destructuring
`params || []` (true is truthy and not iterable), so the response emitter is
never invoked, against the exactly-once contract. -/
theorem c1_counterexample :
    onEthereumRequest "personal_sign" (JValue.bool true) Decision.approve =
      Except.error "true is not iterable" := by
  simp [onEthereumRequest, jsOrElse, jsTruthy, destructure2, jsToString]

/-- C1 (amended): for every Request on which the dispatch does not throw,
onEthereumRequest invokes the response emitter exactly once, and the single
emitted Response carries the same method value as the Request. -/
theorem c1_emits_once_same_method (method : String) (params : JValue)
    (decide : Decision) (o : DispatchOutcome)
    (h : onEthereumRequest method params decide = .ok o) :
    o.emits.map EmitCall.method = [method] := by
  unfold onEthereumRequest at h
  split_ifs at h <;>
    first
      | (injection h with h; subst h; cases decide <;> rfl)
      | (split at h
         · injection h
         · injection h with h; subst h; cases decide <;> rfl)

/-- C1 witness: the eth_chainId dispatch emits exactly once with the same
method. -/
theorem c1_emits_once_same_method_witness :
    (DispatchOutcome.mk none [⟨"eth_chainId", true, .str "0x1"⟩]).emits.map
      EmitCall.method = ["eth_chainId"] :=
  c1_emits_once_same_method "eth_chainId" .undefined .approve _ rfl

/-- C2: every Response encoded from an emitter call of any dispatch branch,
under any consent decision, carries result (and no errorMessage) exactly
when success is true, and errorMessage (and no result) exactly when success
is false; the two fields are never both populated. -/
theorem c2_result_error_exclusive (method : String) (params : JValue)
    (decide : Decision) (o : DispatchOutcome)
    (h : onEthereumRequest method params decide = .ok o)
    (c : EmitCall) (hc : c ∈ o.emits) :
    ((encodeResponse c).success = true →
      ((encodeResponse c).result).isSome = true ∧
      (encodeResponse c).errorMessage = none) ∧
    ((encodeResponse c).success = false →
      ((encodeResponse c).errorMessage).isSome = true ∧
      (encodeResponse c).result = none) := by
  unfold onEthereumRequest at h
  split_ifs at h <;>
    first
      | (injection h with h; subst h;
         cases decide <;> simp_all [encodeResponse, jsonField])
      | (split at h
         · injection h
         · injection h with h; subst h;
           cases decide <;> simp_all [encodeResponse, jsonField])

/-- C2 witness: the mutual-exclusivity invariant at the eth_chainId
response. -/
theorem c2_result_error_exclusive_witness :
    ((encodeResponse ⟨"eth_chainId", true, .str "0x1"⟩).success = true →
      ((encodeResponse ⟨"eth_chainId", true, .str "0x1"⟩).result).isSome = true ∧
      (encodeResponse ⟨"eth_chainId", true, .str "0x1"⟩).errorMessage = none) ∧
    ((encodeResponse ⟨"eth_chainId", true, .str "0x1"⟩).success = false →
      ((encodeResponse ⟨"eth_chainId", true, .str "0x1"⟩).errorMessage).isSome = true ∧
      (encodeResponse ⟨"eth_chainId", true, .str "0x1"⟩).result = none) :=
  c2_result_error_exclusive "eth_chainId" .undefined .approve
    ⟨none, [⟨"eth_chainId", true, .str "0x1"⟩]⟩ rfl
    ⟨"eth_chainId", true, .str "0x1"⟩ (List.mem_singleton.mpr rfl)

/-- C4: eth_requestAccounts with rejection emits a failure whose encoded
errorMessage is the exact rejection text; with approval it emits a success
whose encoded result is the one-element array holding exactly the configured
mock address; the approved outcome is independent of params and identical
across repeated approved calls. -/
theorem c4_requestAccounts (p q : JValue) :
    onEthereumRequest "eth_requestAccounts" p Decision.reject =
      .ok ⟨some ("Connection Request",
                 "Uniswap wants to connect your wallet.\nAllow?"),
           [⟨"eth_requestAccounts", false, .str "User rejected connection"⟩]⟩ ∧
    (encodeResponse
        ⟨"eth_requestAccounts", false, .str "User rejected connection"⟩) =
      ⟨"ETH_RESPONSE", "eth_requestAccounts", false, none,
       some (.str "User rejected connection")⟩ ∧
    onEthereumRequest "eth_requestAccounts" p Decision.approve =
      .ok ⟨some ("Connection Request",
                 "Uniswap wants to connect your wallet.\nAllow?"),
           [⟨"eth_requestAccounts", true, .arr [.str mockWalletAddress]⟩]⟩ ∧
    (encodeResponse
        ⟨"eth_requestAccounts", true, .arr [.str mockWalletAddress]⟩) =
      ⟨"ETH_RESPONSE", "eth_requestAccounts", true,
       some (.arr [.str mockWalletAddress]), none⟩ ∧
    onEthereumRequest "eth_requestAccounts" p Decision.approve =
      onEthereumRequest "eth_requestAccounts" q Decision.approve :=
  ⟨rfl, rfl, rfl, rfl, rfl⟩

/-- C5: eth_chainId, with any params and any decision, immediately emits the
success Response with result the string 0x1, and repeated calls produce the
identical Response. -/
theorem c5_chainId (p q : JValue) (d e : Decision) :
    onEthereumRequest "eth_chainId" p d =
      .ok ⟨none, [⟨"eth_chainId", true, .str "0x1"⟩]⟩ ∧
    encodeResponse ⟨"eth_chainId", true, .str "0x1"⟩ =
      ⟨"ETH_RESPONSE", "eth_chainId", true, some (.str "0x1"), none⟩ ∧
    onEthereumRequest "eth_chainId" p d = onEthereumRequest "eth_chainId" q e :=
  ⟨rfl, rfl, rfl⟩

/-- C6: a Request whose method is outside the dispatch table yields, without
throwing, exactly one failure Response that names the method in its
errorMessage text. -/
theorem c6_unknown_method (method : String) (p : JValue) (d : Decision)
    (h : method ∉ dispatchTable) :
    onEthereumRequest method p d =
      .ok ⟨none, [⟨method, false, .str ("Method not supported: " ++ method)⟩]⟩ ∧
    (∃ pre suf : String,
      "Method not supported: " ++ method = pre ++ method ++ suf) := by
  simp only [dispatchTable, List.mem_cons, List.mem_singleton, not_or] at h
  obtain ⟨h1, h2, h3, h4, h5, h6, h7⟩ := h
  refine ⟨?_, "Method not supported: ", "", by simp⟩
  simp [onEthereumRequest, h1, h2, h3, h4, h5, h6, h7]

/-- C6 witness: the unknown method eth_foo yields the failure Response
naming it. -/
theorem c6_unknown_method_witness :
    (onEthereumRequest "eth_foo" .undefined Decision.approve =
      .ok ⟨none, [⟨"eth_foo", false, .str ("Method not supported: " ++ "eth_foo")⟩]⟩ ∧
    (∃ pre suf : String,
      "Method not supported: " ++ "eth_foo" = pre ++ "eth_foo" ++ suf)) :=
  c6_unknown_method "eth_foo" .undefined Decision.approve (by decide)

/-- C3: the message-relay wiring is inactive in the current source: the
WebView is mounted without onMessage and without injectedJavaScript, so no
page-originated message reaches the host; sendWebViewResponse posts no
message whatever its arguments; and a pending call that receives no inbound
messages stays unsettled. -/
theorem c3_relay_inactive :
    appWebView.hasOnMessage = false ∧
    appWebView.hasInjectedJavaScript = false ∧
    (∀ pageMsgs : List String, hostInbound appWebView pageMsgs = []) ∧
    (∀ (m : String) (s : Bool) (r : JValue),
      sendWebViewResponsePosts m s r = []) ∧
    (∀ c : String, settleAfter c [] = none) :=
  ⟨rfl, rfl, fun _ => rfl, fun _ _ _ => rfl, fun _ => rfl⟩

/-- C7: the per-call listener of a pending call ignores messages that fail
to parse, have a type other than ETH_RESPONSE, or a method different from
the call's own, leaving the call pending; a matching Response makes it
deregister and settle exactly once, fulfilled with result when success is
truthy, rejected with the errorMessage text otherwise, falling back to the
default text when errorMessage is absent. -/
theorem c7_pending_call_listener (c : String) :
    (handleMessage c none = none) ∧
    (∀ d : JValue, jeqStr (jget d "type") "ETH_RESPONSE" = false →
      handleMessage c (some d) = none) ∧
    (∀ d : JValue, jeqStr (jget d "method") c = false →
      handleMessage c (some d) = none) ∧
    (∀ d : JValue, jeqStr (jget d "type") "ETH_RESPONSE" = true →
      jeqStr (jget d "method") c = true →
      jsTruthy (jget d "success") = true →
      handleMessage c (some d) = some (.fulfilled (jget d "result"))) ∧
    (∀ d : JValue, jeqStr (jget d "type") "ETH_RESPONSE" = true →
      jeqStr (jget d "method") c = true →
      jsTruthy (jget d "success") = false →
      handleMessage c (some d) = some (.rejectedErr (jsToString
        (jsOrElse (jget d "errorMessage") (.str "Request failed"))))) ∧
    (∀ d : JValue, jeqStr (jget d "type") "ETH_RESPONSE" = true →
      jeqStr (jget d "method") c = true →
      jsTruthy (jget d "success") = false →
      jget d "errorMessage" = .undefined →
      handleMessage c (some d) =
        some (.rejectedErr "Request failed")) := by
  refine ⟨rfl, ?_, ?_, ?_, ?_, ?_⟩
  · intro d h
    cases hd : isNullish d <;> simp [handleMessage, hd, h]
  · intro d h
    cases hd : isNullish d <;> simp [handleMessage, hd, h]
  · intro d h1 h2 h3
    simp [handleMessage, isNullish_eq_false_of_jeqStr h1, h1, h2, h3]
  · intro d h1 h2 h3
    simp [handleMessage, isNullish_eq_false_of_jeqStr h1, h1, h2, h3]
  · intro d h1 h2 h3 h4
    simp [handleMessage, isNullish_eq_false_of_jeqStr h1, h1, h2, h3, h4]
    simp [jsOrElse, jsTruthy, jsToString]

/-- C7 witness: a matching successful Response fulfils the pending
eth_chainId call with its result. -/
theorem c7_pending_call_listener_witness :
    handleMessage "eth_chainId" (some (.obj
      [("type", .str "ETH_RESPONSE"), ("method", .str "eth_chainId"),
       ("success", .bool true), ("result", .str "0x1")])) =
      some (.fulfilled (jget (.obj
        [("type", .str "ETH_RESPONSE"), ("method", .str "eth_chainId"),
         ("success", .bool true), ("result", .str "0x1")]) "result")) :=
  (c7_pending_call_listener "eth_chainId").2.2.2.1 _ rfl rfl rfl

/-- C8: when a provider object already occupies window.ethereum, running
the injected script leaves it untouched: the slot is unchanged, no mock
provider is installed, no auto-connect is scheduled and no error is
thrown. -/
theorem c8_install_guard (t : Nat) :
    runInjectedScript (.provider t) = ⟨.provider t, false, false, false⟩ :=
  rfl

/-- C9: malformed inbound payloads are swallowed without a throw on both
sides: text that does not parse as JSON, and parsed JSON whose type field is
missing, make the host handler send nothing and leave the pending call of
the provider untouched. -/
theorem c9_malformed_ignored (dec : Decision) (c : String) (d : JValue)
    (h : jget d "type" = .undefined) :
    handleWebViewMessage none dec = [] ∧
    handleMessage c none = none ∧
    handleWebViewMessage (some d) dec = [] ∧
    handleMessage c (some d) = none := by
  refine ⟨rfl, rfl, ?_, ?_⟩
  · cases hd : isNullish d <;> simp [handleWebViewMessage, hd, h, jeqStr]
  · cases hd : isNullish d <;> simp [handleMessage, hd, h, jeqStr]

/-- C9 witness: a JSON object with no type field is ignored by both
sides. -/
theorem c9_malformed_ignored_witness :
    handleWebViewMessage none Decision.approve = [] ∧
    handleMessage "eth_chainId" none = none ∧
    handleWebViewMessage (some (.obj [("foo", .num 1)])) Decision.approve = [] ∧
    handleMessage "eth_chainId" (some (.obj [("foo", .num 1)])) = none :=
  c9_malformed_ignored Decision.approve "eth_chainId" (.obj [("foo", .num 1)]) rfl

/-- C10: a personal_sign Request whose params is absent, null or an array of
fewer than two elements does not make the dispatch throw: the destructured
message and address of an absent, null or empty params render as undefined
in the consent prompt, approval emits the fixed signature, and rejection
emits the signature-rejection errorMessage. -/
theorem c10_personal_sign_defensive (p : JValue) (d : Decision) :
    (p = .undefined ∨ p = .null ∨ p = .arr [] →
      onEthereumRequest "personal_sign" p d =
        .ok ⟨some ("Signature Request",
              "Uniswap wants to sign:\nundefined\nWith address:\nundefined\nAllow?"),
             [signEmit d]⟩) ∧
    (∀ x : JValue, p = .arr [x] →
      onEthereumRequest "personal_sign" p d =
        .ok ⟨some ("Signature Request",
              "Uniswap wants to sign:\n" ++ jsToString x ++
              "\nWith address:\nundefined\nAllow?"),
             [signEmit d]⟩) := by
  constructor
  · rintro (rfl | rfl | rfl) <;> cases d <;>
      simp [onEthereumRequest, jsOrElse, jsTruthy, destructure2, jsToString,
            signEmit]
  · rintro x rfl
    cases d <;>
      simp [onEthereumRequest, jsOrElse, jsTruthy, destructure2, jsToString,
            signEmit, String.append_assoc]

/-- C10 witness: personal_sign with absent params, approved, emits the fixed
signature behind a prompt rendering both fields as undefined. -/
theorem c10_personal_sign_defensive_witness :
    onEthereumRequest "personal_sign" JValue.undefined Decision.approve =
      .ok ⟨some ("Signature Request",
            "Uniswap wants to sign:\nundefined\nWith address:\nundefined\nAllow?"),
           [signEmit Decision.approve]⟩ :=
  (c10_personal_sign_defensive JValue.undefined Decision.approve).1 (Or.inl rfl)
